import Mathlib

set_option maxRecDepth 4000

/-!
Verification of the orb object-relational mapper against its specification.

The definitions below are a shallow embedding of the Python source under
`src/`.  Python values are modelled by the inductive `PyValue`; Python
exceptions by `PyErr` (interpreter-level errors such as NameError or
AttributeError) and `OrbError` (the error taxonomy of the library);
fallible code returns `Except`.  Dictionaries whose insertion order
matters are modelled as association lists.  Machine-level details that a
claim depends on (CPython identity hashes of generator objects, the
semantics of `str.rpartition`, of `str.replace`, of truthiness) are
embedded explicitly and documented at the definition site.
-/

namespace Orb

/-- Modelled from the spec: `orb.Query`, the abstract boolean filter tree
(the class itself is not under `src/`; §4.2 of the spec describes it as a
predicate tree combined with logical AND, where combining with `None` or
with an empty query is absorbing).  `empty` is the null query produced by
`orb.Query()`, `atom` an opaque leaf predicate, `qand` the AND compound. -/
inductive Query where
  | empty
  | atom (n : Nat)
  | qand (a b : Query)
  deriving DecidableEq

/-- Evaluation of a query tree against an environment assigning truth
values to the leaf predicates; the empty query accepts everything. -/
def evalQ (env : Nat → Bool) : Query → Bool
  | .empty => true
  | .atom n => env n
  | .qand a b => evalQ env a && evalQ env b

/-- Modelled from the spec: `Query.__and__` / `__iand__` — combination
with AND; a `None` operand is a no-op and an empty operand is absorbed
(spec §4.2: predicates are combined with logical AND across source and
new). -/
def qAndOpt (q : Query) (o : Option Query) : Query :=
  match o with
  | none => q
  | some r =>
    match q, r with
    | .empty, r => r
    | q, .empty => q
    | q, r => .qand q r

/-- Python runtime values, as used by the embedded code.  `vQuery`,
`vCollection` and `vModel` wrap the orb objects that flow through the
embedded functions (`orb.Query`, `orb.Collection`, `orb.Model`). -/
inductive PyValue where
  | vNone
  | vBool (b : Bool)
  | vInt (n : Int)
  | vStr (s : String)
  | vList (xs : List PyValue)
  | vTuple (xs : List PyValue)
  | vSet (xs : List PyValue)
  | vQuery (q : Query)
  | vCollection (ids : List PyValue)
  | vModel (recId : PyValue)

mutual

/-- Python `==` on the embedded values: structural on primitives and
containers (Python compares lists, tuples and sets elementwise by `==`).
Query objects fall back to structural comparison here; no claim
exercises `==` between two query objects. -/
def pyEq : PyValue → PyValue → Bool
  | .vNone, .vNone => true
  | .vBool a, .vBool b => a == b
  | .vInt a, .vInt b => a == b
  | .vStr a, .vStr b => a == b
  | .vList a, .vList b => pyEqList a b
  | .vTuple a, .vTuple b => pyEqList a b
  | .vSet a, .vSet b => pyEqList a b
  | .vQuery a, .vQuery b => decide (a = b)
  | .vCollection a, .vCollection b => pyEqList a b
  | .vModel a, .vModel b => pyEq a b
  | _, _ => false

/-- Elementwise Python `==` on lists of values. -/
def pyEqList : List PyValue → List PyValue → Bool
  | [], [] => true
  | a :: as, b :: bs => pyEq a b && pyEqList as bs
  | _, _ => false

end

/-- Python interpreter-level exceptions raised by the embedded code. -/
inductive PyErr where
  | nameError (n : String)
  | attributeError (n : String)
  | keyError (k : String)
  deriving DecidableEq

/-- Python truthiness (`bool(x)`): `None`, `False`, zero, the empty
string and empty containers are falsy.  orb objects (queries, models,
collections) carry no `__nonzero__` override in the embedded code paths,
so they default to truthy. -/
def pyTruthy : PyValue → Bool
  | .vNone => false
  | .vBool b => b
  | .vInt n => decide (n ≠ 0)
  | .vStr s => !s.isEmpty
  | .vList xs => !xs.isEmpty
  | .vTuple xs => !xs.isEmpty
  | .vSet xs => !xs.isEmpty
  | .vQuery _ => true
  | .vCollection _ => true
  | .vModel _ => true

/-- Python `type(x) is bool`. -/
def isBoolVal : PyValue → Bool
  | .vBool _ => true
  | _ => false

/-! ### Dictionaries as association lists -/

abbrev Raw := List (String × PyValue)

/-- Dictionary lookup (`d.get(k)` / `d[k]`), first match wins. -/
def rawGet : Raw → String → Option PyValue
  | [], _ => none
  | (k, v) :: rest, key => if k = key then some v else rawGet rest key

/-- Dictionary `d.setdefault(k, v)`: inserts only when the key is absent. -/
def rawSetdefault (r : Raw) (k : String) (v : PyValue) : Raw :=
  if (rawGet r k).isSome then r else r ++ [(k, v)]

/-- Dictionary assignment `d[k] = v`: overwrite in place, else append. -/
def rawSet : Raw → String → PyValue → Raw
  | [], k, v => [(k, v)]
  | (k0, v0) :: rest, k, v =>
    if k0 = k then (k0, v) :: rest else (k0, v0) :: rawSet rest k v

/-! ### Context (`src/orb/core/context.py`) -/

/-- `Context.Defaults` verbatim from `context.py` lines 24-45 (including
the `disinctOn` misspelling), in source insertion order. -/
def Defaults : Raw :=
  [("autoIncrementEnabled", .vBool true),
   ("columns", .vNone),
   ("database", .vNone),
   ("distinct", .vBool false),
   ("disinctOn", .vStr ""),
   ("dryRun", .vBool false),
   ("expand", .vNone),
   ("force", .vBool false),
   ("inflated", .vBool true),
   ("limit", .vNone),
   ("locale", .vNone),
   ("namespace", .vStr ""),
   ("order", .vNone),
   ("page", .vNone),
   ("pageSize", .vNone),
   ("scope", .vNone),
   ("returning", .vStr "records"),
   ("start", .vNone),
   ("timezone", .vNone),
   ("where", .vNone)]

/-- `Context.UnhashableOptions` (context.py lines 47-49). -/
def UnhashableOptions : List String := ["scope"]

/-- A `Context` instance: its only per-instance state is the
`raw_values` dictionary assigned at the end of `__init__`. -/
structure Context where
  raw_values : Raw

/-- The source context's `where` as read by `__init__` (line 90,
`other.where`, which goes through `__getattr__`: the stored value if
truthy, else the default `None`; query objects are truthy). -/
def ctxWhereOf (c : Context) : Option Query :=
  match rawGet c.raw_values "where" with
  | some (.vQuery q) => some q
  | _ => none

/-- The source context's `columns` as read by `__init__` (line 98,
`other.columns` through `__getattr__`): a stored empty list is falsy and
falls back to the default `None`, so only a non-empty stored list merges. -/
def ctxColumnsOf (c : Context) : Option (List PyValue) :=
  match rawGet c.raw_values "columns" with
  | some (.vList l) => if l.isEmpty then none else some l
  | _ => none

/-- `kwds.get('columns', [])` (context.py line 100) specialised to the
list-valued case; a non-list stored value would raise TypeError when
iterated in Python and is not exercised by the claims. -/
def kwdsColumns (r : Raw) : List PyValue :=
  match rawGet r "columns" with
  | some (.vList l) => l
  | _ => []

/-- `kwds.get('where')` read as a query operand (context.py line 94). -/
def kwdsWhere (r : Raw) : Option Query :=
  match rawGet r "where" with
  | some (.vQuery q) => some q
  | _ => none

/-- The default-fill loop of `Context.__init__` (context.py lines
83-87): every option of the source outside the ignore list
(`columns`, `where`) is `setdefault`-ed into the keyword dictionary
(`copy.deepcopy` is the identity on the embedded pure values). -/
def ignoreFold (kwds : Raw) (other : Context) : Raw :=
  other.raw_values.foldl
    (fun acc kv =>
      if kv.1 = "columns" ∨ kv.1 = "where" then acc
      else rawSetdefault acc kv.1 kv.2) kwds

/-- The `where`-merge of `Context.__init__` (context.py lines 89-95):
`q = orb.Query(); q &= other.where; q &= kwds.get('where');
kwds['where'] = q`, performed only when the source where is not None. -/
def mergeWhere (kwds : Raw) (other : Context) : Raw :=
  match ctxWhereOf other with
  | none => kwds
  | some w =>
    rawSet kwds "where"
      (.vQuery (qAndOpt (qAndOpt Query.empty (some w)) (kwdsWhere kwds)))

/-- The `columns`-merge of `Context.__init__` (context.py lines 97-100):
`kwds['columns'] = columns + [col for col in kwds.get('columns', []) if
not col in columns]`, performed only when the source columns are truthy. -/
def mergeColumns (kwds : Raw) (other : Context) : Raw :=
  match ctxColumnsOf other with
  | none => kwds
  | some cols =>
    rawSet kwds "columns"
      (.vList (cols ++ (kwdsColumns kwds).filter (fun col => !cols.any (pyEq col))))

/-- One iteration of the `for other in others` loop of
`Context.__init__` (context.py lines 81-100). -/
def mergeFromOther (kwds : Raw) (other : Context) : Raw :=
  mergeColumns (mergeWhere (ignoreFold kwds other) other) other

/-- `Context.__init__` (context.py lines 78-102).  `sourceCtx` is the
`context` keyword argument popped from `kwds`; `defaultCtx` is the
thread-local `defaultContext()`.  After the merge loop, `raw_values`
keeps only the keys registered in `Defaults`. -/
def ctxInit (kwds : Raw) (sourceCtx : Option Context) (defaultCtx : Option Context) : Context :=
  let kwds := match sourceCtx with | some o => mergeFromOther kwds o | none => kwds
  let kwds := match defaultCtx with | some o => mergeFromOther kwds o | none => kwds
  ⟨kwds.filter (fun kv => (rawGet Defaults kv.1).isSome)⟩

/-- `Context.__getattr__` (context.py lines 104-108):
`self.raw_values.get(key) or self.Defaults[key]` with `KeyError`
re-raised as `AttributeError`.  The `or` means a stored falsy value is
replaced by the registered default. -/
def getattrCtx (c : Context) (key : String) : Except PyErr PyValue :=
  match rawGet c.raw_values key with
  | some v =>
    if pyTruthy v then .ok v
    else
      match rawGet Defaults key with
      | some d => .ok d
      | none => .error (.attributeError key)
  | none =>
    match rawGet Defaults key with
    | some d => .ok d
    | none => .error (.attributeError key)

/-- CPython's identity hash of an object allocated at address `addr`
(`object.__hash__`, a bijective function of the pointer; modelled as the
address itself). -/
def pyIdHash (addr : Nat) : Nat := addr

/-- `Context.__hash__` (context.py lines 57-59).  The argument passed to
`hash(...)` is the generator expression object itself, not a tuple:
generators define no `__hash__` of their own, so the result is the
identity hash of the freshly allocated generator at address `genAddr`
and is independent of the option values. -/
def contextHash (_c : Context) (genAddr : Nat) : Nat := pyIdHash genAddr

/-- `Context.__eq__` (context.py lines 51-52): `hash(self) == hash(other)`,
where each `hash` call allocates a fresh generator (`a1`, `a2` are the two
allocation addresses). -/
def contextEq (c1 c2 : Context) (a1 a2 : Nat) : Bool :=
  contextHash c1 a1 == contextHash c2 a2

/-- The sequence the generator inside `Context.__hash__` would produce
if it were iterated (as the surrounding code plainly intends):
`(k, self.raw_values[k])` for the `Defaults` items whose stored value
differs from the default and is hashable.  `self.raw_values[k]` is an
unguarded subscript, so the first `Defaults` key absent from
`raw_values` raises `KeyError`. -/
def hashPairsAux (c : Context) : Raw → Except PyErr (List (String × PyValue))
  | [] => .ok []
  | (k, d) :: rest =>
    match rawGet c.raw_values k with
    | none => .error (.keyError k)
    | some v =>
      match hashPairsAux c rest with
      | .error e => .error e
      | .ok tail =>
        .ok (if !pyEq v d ∧ ¬ k ∈ UnhashableOptions then (k, v) :: tail else tail)

/-- The element sequence of the `Context.__hash__` generator over the
full `Defaults` table. -/
def contextHashPairs (c : Context) : Except PyErr (List (String × PyValue)) :=
  hashPairsAux c Defaults

/-! ### `Context.expand` / `Context.expandtree` -/

/-- Split a character list on commas (`str.split(',')`): used by the
`expand` property for string-valued input.  Splitting the empty string
yields `[""]`, as in Python. -/
def splitCommaAux : List Char → List Char → List String
  | [], acc => [⟨acc.reverse⟩]
  | c :: rest, acc =>
    if c = ',' then ⟨acc.reverse⟩ :: splitCommaAux rest [] else splitCommaAux rest (c :: acc)

/-- The `expand` property (context.py lines 137-151) for the two input
shapes the claims exercise: a list value is returned unchanged (the
`else` branch) and a string is split on commas.  The `set` branch
(nondeterministic iteration order) and the nested-`dict` branch are not
needed by any claim and are not modelled; `none` means the option is
absent or `None`. -/
def expandProp (c : Context) : Option (List String) :=
  match rawGet c.raw_values "expand" with
  | some (.vStr s) => some (splitCommaAux s.data [])
  | some (.vList l) =>
    some (l.map (fun v => match v with | .vStr s => s | _ => ""))
  | _ => none

/-- `name.rpartition('.')` reduced to the two components the code binds
(context.py line 159: `name, _, remain = name.rpartition('.')`): split at
the last dot; when no dot occurs Python returns two empty strings and
the original string last, so `name` is empty and `remain` is the whole
input. -/
def rpartAux : List Char → Option (List Char × List Char)
  | [] => none
  | c :: rest =>
    match rpartAux rest with
    | some (b, a) => some (c :: b, a)
    | none => if c = '.' then some ([], rest) else none

/-- String-level wrapper for `rpartAux`: `(name, remain)`. -/
def rpartDot (s : String) : String × String :=
  match rpartAux s.data with
  | some (b, a) => (⟨b⟩, ⟨a⟩)
  | none => ("", s)

/-- The nested dictionaries built by `expandtree` (a tree of string keys). -/
inductive PathTree where
  | node : List (String × PathTree) → PathTree

/-- Lookup in a tree level (`tree[name]`). -/
def kidsGet : List (String × PathTree) → String → Option PathTree
  | [], _ => none
  | (k, t) :: rest, key => if k = key then some t else kidsGet rest key

/-- `tree.setdefault(name, {})` on a tree level. -/
def kidsSetdefault (kids : List (String × PathTree)) (k : String) : List (String × PathTree) :=
  if (kidsGet kids k).isSome then kids else kids ++ [(k, .node [])]

/-- In-place update of one key of a tree level (the mutation of
`tree[name]` performed by the recursive call). -/
def kidsSet : List (String × PathTree) → String → PathTree → List (String × PathTree)
  | [], k, t => [(k, t)]
  | (k0, t0) :: rest, k, t =>
    if k0 = k then (k0, t) :: rest else (k0, t0) :: kidsSet rest k t

/-- `build_tree` from `Context.expandtree` (context.py lines 158-163),
made total with a recursion-depth budget `fuel`: `none` means the
Python call has not returned within `fuel` nested calls (Python instead
hits `RecursionError` when the recursion is unbounded). -/
def buildTree : Nat → PathTree → String → Option PathTree
  | 0, _, _ => none
  | fuel + 1, .node kids, s =>
    let p := rpartDot s
    let kids := kidsSetdefault kids p.1
    if p.2 = "" then some (.node kids)
    else
      match kidsGet kids p.1 with
      | none => none
      | some sub =>
        match buildTree fuel sub p.2 with
        | none => none
        | some sub2 => some (.node (kidsSet kids p.1 sub2))

/-- The `for branch in expand` loop of `expandtree` (context.py lines
165-167). -/
def buildAll (fuel : Nat) : PathTree → List String → Option PathTree
  | t, [] => some t
  | t, b :: rest =>
    match buildTree fuel t b with
    | none => none
    | some t2 => buildAll fuel t2 rest

/-- `Context.expandtree` (context.py lines 153-168), with a
recursion-depth budget threaded through `build_tree`. -/
def expandtree (fuel : Nat) (c : Context) : Option PathTree :=
  match expandProp c with
  | none => some (.node [])
  | some [] => some (.node [])
  | some branches => buildAll fuel (.node []) branches

/-! ### Column (`src/orb/core/column.py`) -/

/-- The orb error taxonomy (spec §7); only the constructors the claims
exercise are carried, each with the payload the source attaches. -/
inductive OrbError where
  | columnValidationError (column : String) (msg : String)
  | interruption
  | duplicateEntryFound (msg : String)
  | queryFailed (cmd : String) (data : Raw) (msg : String)

namespace Flags

/-- `Column.Flags` (column.py lines 24-38) is a `projex.enum` over the
thirteen flag names; `projex.enum` assigns each name the next power of
two in declaration order, so `AutoIncrement` (5th) is 16 and `Required`
(6th) is 32. -/
def ReadOnly : Nat := 1

def Private : Nat := 2

def Polymorphic : Nat := 4

def Primary : Nat := 8

def AutoIncrement : Nat := 16

def Required : Nat := 32

def Unique : Nat := 64

def Encrypted : Nat := 128

def Searchable : Nat := 256

def Translatable : Nat := 512

def CaseSensitive : Nat := 1024

def Virtual : Nat := 2048

def Queryable : Nat := 4096

end Flags

/-- A column, restricted to the constructor state the claims read:
accessor `name` and the `flags` bitset. -/
structure Col where
  name : String
  flags : Nat

/-- `Column.testFlag` (column.py lines 358-367) for a flag constant:
`bool(self.flags() & flag)`.  The source also has an `else` branch for
negative flag arguments (`not bool(self.flags() & ~flag)`); every
`Flags` constant is a positive power of two so that branch is never
taken in the embedded claims. -/
def testFlag (flags flag : Nat) : Bool :=
  decide (Nat.land flags flag ≠ 0)

/-- `Column.isNull` (column.py lines 210-218):
`type(value) is not bool and not bool(value)` — any falsy value is null
except the booleans, which are never null. -/
def colIsNull (value : PyValue) : Bool :=
  !isBoolVal value && !pyTruthy value

/-- `Column.validate` (column.py lines 369-386): with Required set and
AutoIncrement unset, a null value raises ColumnValidationError with the
message `'{0} is a required column.'.format(self.name())`; otherwise
the method returns True. -/
def validate (c : Col) (value : PyValue) : Except OrbError Bool :=
  if testFlag c.flags Flags.Required && !testFlag c.flags Flags.AutoIncrement then
    if colIsNull value then
      .error (.columnValidationError c.name (c.name ++ " is a required column."))
    else .ok true
  else .ok true

/-- `Column.dbStore` (column.py lines 83-101).  For a list, tuple or set
the source builds `tuple((self.dbStore(database, x, context=context) for x
in py_value))`: the name `database` is not bound anywhere in the method,
so the first element drawn from the generator raises
`NameError: name 'database' is not defined`; an empty container never
runs the generator body and yields the empty tuple.  An `orb.Collection`
is replaced by `py_value.ids()` (its id list) and an `orb.Model` by
`py_value.id()` (both collaborators are outside `src/`; their accessors
are modelled from spec §4.1: conversion to primitive storable forms).
Any other value is returned unchanged. -/
def dbStore (v : PyValue) : Except PyErr PyValue :=
  match v with
  | .vList [] => .ok (.vTuple [])
  | .vTuple [] => .ok (.vTuple [])
  | .vSet [] => .ok (.vTuple [])
  | .vList (_ :: _) => .error (.nameError "database")
  | .vTuple (_ :: _) => .error (.nameError "database")
  | .vSet (_ :: _) => .error (.nameError "database")
  | .vCollection ids => .ok (.vList ids)
  | .vModel recId => .ok recId
  | v => .ok v

/-! ### MSSQL error classification
(`src/orb/core/connection_types/sql/mssql/mssqlconnection.py`) -/

/-- A native pymssql error as raised by `cursor.execute`:
`OperationalError`, `IntegrityError` or any other exception, each
carrying its message (`nstr(err)`). -/
inductive NativeErr where
  | operational (msg : String)
  | integrity (msg : String)
  | other (msg : String)
  deriving DecidableEq

/-- The test `err == 'interrupted'` from `_execute` (mssqlconnection.py
line 102) compares the exception object itself — not its message — with
a string.  `pymssql.OperationalError` inherits default object equality
and no exception instance is a `str`, so the comparison is `False` for
every error. -/
def excEqualsStr (_err : NativeErr) (_s : String) : Bool := false

/-- Boolean prefix test on character lists (helper for the substring
scans used below). -/
def isPrefixB : List Char → List Char → Bool
  | [], _ => true
  | _ :: _, [] => false
  | a :: as, b :: bs => a == b && isPrefixB as bs

/-- First occurrence scan: the index after which `pat` first occurs in
`s`, if any (helper modelling `re.search` with a literal prefix). -/
def findPat (pat : List Char) : List Char → Option (List Char)
  | [] => if isPrefixB pat [] then some [] else none
  | c :: rest =>
    if isPrefixB pat (c :: rest) then some (c :: rest)
    else findPat pat rest

/-- Boolean substring test. -/
def strContainsB (s pat : String) : Bool :=
  (findPat pat.data s.data).isSome

/-- `re.search('UNIQUE constraint failed: (.*)', nstr(err))` followed by
`.group(1)` (mssqlconnection.py lines 110-112): if the literal prefix
occurs in the message, the capture is everything after its first
occurrence up to the end of the line (`.` does not match a newline). -/
def uniqueCapture (msg : String) : Option String :=
  match findPat "UNIQUE constraint failed: ".data msg.data with
  | none => none
  | some rest =>
    some ⟨(rest.drop "UNIQUE constraint failed: ".data.length).takeWhile (fun c => c ≠ '\n')⟩

/-- The `try/except` classification inside `MSSQLConnection._execute`
(mssqlconnection.py lines 94-123), as the map from the native error
raised by `cursor.execute(cmd, data)` to the orb error the method
re-raises.  `cmd` is the per-statement text (with the appended `;`),
`command` the full original text used by the integrity fall-through
branch. -/
def mssqlClassify (cmd command : String) (data : Raw) (err : NativeErr) : OrbError :=
  match err with
  | .operational msg =>
    if excEqualsStr (.operational msg) "interrupted" then .interruption
    else .queryFailed cmd data msg
  | .integrity msg =>
    match uniqueCapture msg with
    | some captured => .duplicateEntryFound (captured ++ " is already being used.")
    | none => .queryFailed command data msg
  | .other msg => .queryFailed cmd data msg

/-! ### Reverse lookup (`src/orb/schema/meta/metatable.py`) -/

/-- The cache key built in `reverselookupmethod.__call__` (metatable.py
lines 241-243): `(record.id(), hash(orb.LookupOptions(**kwds)),
record.database().name())`; the lookup-options hash is carried as an
opaque integer. -/
abbrev CacheKey := Nat × Int × String

/-- A `reverselookupmethod` instance.  `__init__` (metatable.py lines
197-219) assigns `self._cache`, `self._local_cache` and the option
fields; it never assigns an attribute named `_locale_cache`, which
`hasLocaleCacheAttr` records. -/
structure RevLookup where
  unique : Bool
  cached : Bool
  cacheTimeout : Nat
  hasLocaleCacheAttr : Bool

/-- Construction of a reverse lookup by `MetaTable.createModel`
(metatable.py lines 532-537): no `_locale_cache` attribute exists on the
new instance. -/
def mkRevLookup (unique cached : Bool) (cacheTimeout : Nat) : RevLookup :=
  ⟨unique, cached, cacheTimeout, false⟩

/-- Mutable state touched by `__call__`: `self._local_cache` (record-set
values carried as opaque ids) and the backing `TableCache` entries with
their validity (`cache.isCached`), the timeout machinery of
`orb.TableCache` being outside `src/` and modelled from spec §4.5 as a
per-key freshness flag. -/
structure RevState where
  localCache : List (CacheKey × Nat)
  tableCacheFresh : CacheKey → Bool

/-- Assoc-list lookup for the local cache. -/
def lcGet : List (CacheKey × Nat) → CacheKey → Option Nat
  | [], _ => none
  | (k, v) :: rest, key => if k = key then some v else lcGet rest key

/-- `self._local_cache.pop(cache_key, None)` (metatable.py line 250). -/
def lcPop : List (CacheKey × Nat) → CacheKey → List (CacheKey × Nat)
  | [], _ => []
  | (k, v) :: rest, key => if k = key then rest else (k, v) :: lcPop rest key

/-- What `reverselookupmethod.__call__` returns: Python `None` or a
record set (carried as an opaque id). -/
inductive RevOut where
  | pyNone
  | rset (rsId : Nat)
  deriving DecidableEq

/-- The part of `reverselookupmethod.__call__` after the cache test has
failed (metatable.py lines 250-278): the stale local entry has been
popped, a non-persisted record bails out with None / an empty record
set, otherwise the reverse select is issued, and then — when a cache is
active and the output is not None — the source executes
`self._locale_cache[cache_key] = output`: loading the `_locale_cache`
attribute, which `__init__` never defines, raises `AttributeError`
unless the instance somehow carries it. -/
def revCallMiss (m : RevLookup) (st : RevState) (isRec : Bool)
    (selectResult : Option Nat) (cacheActive : Bool) :
    Except PyErr (RevOut × RevState × Bool) :=
  if !isRec then
    .ok ((if m.unique then .pyNone else .rset 0), st, false)
  else
    match selectResult with
    | some rsId =>
      if cacheActive then
        if m.hasLocaleCacheAttr then .ok (.rset rsId, st, true)
        else .error (.attributeError "_locale_cache")
      else .ok (.rset rsId, st, true)
    | none => .ok (.pyNone, st, true)

/-- `reverselookupmethod.__call__` (metatable.py lines 221-278) as a
state transformer.  Inputs abstract the collaborators: `tableFound` is
`kwds.get('table') or self.tableFor(record)` being non-None, `isRec` is
`record.isRecord()`, `(rid, optsHash, dbName)` the cache-key parts, and
`selectResult` the value `table.selectFirst(**kwds)` /
`table.select(**kwds)` would produce (`none` = Python `None`).  The
result triple is (returned value, new state, whether a select query was
issued); on a cache hit the cached record set is returned after
`updateOptions`, which mutates only the returned set. -/
def revCall (m : RevLookup) (st : RevState) (reload : Bool)
    (tableFound isRec : Bool) (rid : Nat) (optsHash : Int) (dbName : String)
    (selectResult : Option Nat) :
    Except PyErr (RevOut × RevState × Bool) :=
  if !tableFound then
    .ok ((if m.unique then .pyNone else .rset 0), st, false)
  else
    let cacheActive := m.cached
    let key : CacheKey := (rid, optsHash, dbName)
    match lcGet st.localCache key with
    | some rsId =>
      if !reload && cacheActive && st.tableCacheFresh key then
        .ok (.rset rsId, st, false)
      else
        revCallMiss m { st with localCache := lcPop st.localCache key }
          isRec selectResult cacheActive
    | none =>
      revCallMiss m { st with localCache := lcPop st.localCache key }
        isRec selectResult cacheActive

/-! ### MSSQL DDL rendering
(`src/orb/core/connection_types/sql/mssql/statements/create.py`,
`alter.py`, `add_column.py`) -/

/-- `'sep'.join(parts)`. -/
def joinSep (sep : String) : List String → String
  | [] => ""
  | [x] => x
  | x :: xs => x ++ sep ++ joinSep sep xs

/-- `str.strip()`: drop leading and trailing whitespace. -/
def pyStrip (s : String) : String :=
  ⟨((s.data.dropWhile Char.isWhitespace).reverse.dropWhile Char.isWhitespace).reverse⟩

/-- One left-to-right, non-overlapping pass of `str.replace(old, new)`
over a character list, with a step budget (each step consumes at least
one input character, so a budget of the input length is exact); `old`
is non-empty at every use site. -/
def replFuel (old new : List Char) : Nat → List Char → List Char
  | 0, s => s
  | _, [] => []
  | fuel + 1, c :: rest =>
    if isPrefixB old (c :: rest) then
      new ++ replFuel old new fuel (List.drop (old.length - 1) rest)
    else c :: replFuel old new fuel rest

/-- `s.replace(old, new)` (replaces every occurrence). -/
def pyReplace (s old new : String) : String :=
  ⟨replFuel old.data new.data s.data.length s.data⟩

/-- A column as consumed by the MSSQL DDL statements: its physical
`field`, its MSSQL type string (`Column.dbType('MSSQL')`), the dialect
fragments contributed by its flags (the `Flag::<Name>` registry lookups
in `ADD_COLUMN.__call__`), and the two flag tests the statements make
(`testFlag(Flags.Virtual)`, `testFlag(Flags.I18n)` — the translatable
marker). -/
structure MsColumn where
  field : String
  dbType : String
  flagSql : List String
  virtual : Bool
  i18n : Bool
  deriving DecidableEq

/-- A schema as consumed by the MSSQL DDL statements: `dbname`,
`idColumn()` (None when absent), the declared columns, `inherits()`. -/
structure MsSchema where
  dbname : String
  idColumn : Option MsColumn
  columns : List MsColumn
  inherits : Option String

/-- `ADD_COLUMN.__call__` (add_column.py lines 8-19):
`u'ADD COLUMN "{0}" {1} {2}'.format(field, dbType, ' '.join(flags)).strip()`. -/
def ADD_COLUMN_sql (c : MsColumn) : String :=
  pyStrip ("ADD COLUMN \"" ++ c.field ++ "\" " ++ c.dbType ++ " " ++ joinSep " " c.flagSql)

/-- The column partition performed by `CREATE._createTable` (create.py
lines 22-33) and `ALTER.__call__` (alter.py lines 26-36): skip virtual
columns, split the rest on the I18n flag (`includeReferences` is left at
its default `True`, so no reference column is dropped). -/
def splitI18n (cols : List MsColumn) : List MsColumn × List MsColumn :=
  let kept := cols.filter (fun c => !c.virtual)
  (kept.filter (fun c => c.i18n), kept.filter (fun c => !c.i18n))

/-- The `pcol` binding of `CREATE._createTable` (create.py lines 49-52):
bound only when `id_column` is truthy and the schema does not inherit;
`none` means the Python name stays unbound. -/
def pcolOf (m : MsSchema) : Option String :=
  match m.idColumn, m.inherits with
  | some idc, none => some ("\"" ++ idc.field ++ "\"")
  | _, _ => none

/-- The primary-table command of `CREATE._createTable` (create.py lines
35-64): standard body fragments rewritten with `.replace('ADD ', '')`
(which removes every `'ADD '` occurrence, leaving the word `COLUMN`),
the inherited `__base_id` column, the primary-key constraint when the
schema owns its id, then the conditional-CREATE template with the exact
whitespace of the source triple-quoted literal. -/
def createStdCmd (m : MsSchema) : String :=
  let cmd_body := (splitI18n m.columns).2.map (fun c => pyReplace (ADD_COLUMN_sql c) "ADD " "")
  let cmd_body := cmd_body ++ (match m.inherits with
    | some _ => ["__base_id INTEGER"]
    | none => [])
  let cmd_body := cmd_body ++ (match pcolOf m with
    | some pcol =>
      ["CONSTRAINT \"" ++ m.dbname ++ "_pkey\" PRIMARY KEY (" ++ pcol ++ ")"]
    | none => [])
  let body := joinSep ",\n\t" cmd_body
  let body := if body = "" then body else "\n\t" ++ body ++ "\n"
  "\n        IF NOT EXISTS (SELECT 1 FROM information_schema.tables WHERE table_name='"
    ++ m.dbname ++ "')\n        BEGIN\n            "
    ++ "CREATE TABLE \"" ++ m.dbname ++ "\" (\n                "
    ++ body ++ "\n            )\n        "

/-- `id_type` of the CREATE i18n block (create.py line 69):
`id_column.dbType('MSSQL').replace('IDENTITY(1,1)', '').strip()`. -/
def idTypeOf (idc : MsColumn) : String :=
  pyStrip (pyReplace idc.dbType "IDENTITY(1,1)" "")

/-- The i18n body of the CREATE statement (create.py line 71): the
translatable columns with `.replace('ADD COLUMN ', '')`. -/
def i18nBodyOf (m : MsSchema) : String :=
  joinSep ",\n\t" ((splitI18n m.columns).1.map (fun c => pyReplace (ADD_COLUMN_sql c) "ADD COLUMN " ""))

/-- The i18n side-table block appended by `CREATE._createTable`
(create.py lines 73-84), transcribed from the triple-quoted template
with its exact whitespace; the format substitutions `{table}`,
`{id_type}`, `{pcol}`, `{body}` become the arguments `t`, `ty`, `p`,
`b`.  Note the composite primary key is rendered with the id column
first: `PRIMARY KEY ("<table>_id", "locale")`. -/
def i18nCreateBlock (t ty p b : String) : String :=
  "\n            "
  ++ ("CREATE TABLE \"" ++ t ++ "_i18n\" (")
  ++ "\n                "
  ++ "\"locale\" VARCHAR(5),"
  ++ "\n                "
  ++ ("\"" ++ t ++ "_id\" " ++ ty ++ " REFERENCES \"" ++ t ++ "\" (" ++ p ++ "),")
  ++ "\n                "
  ++ b ++ ","
  ++ "\n                CONSTRAINT \"" ++ t ++ "_i18n_pkey\" "
  ++ ("PRIMARY KEY (\"" ++ t ++ "_id\", \"locale\")")
  ++ "\n            )\n            "

/-- `CREATE._createTable` (create.py lines 16-87), for a model whose
inheritance target (when any) resolves.  String formatting is embedded
as concatenation in template order.  Failure cases of the source are
kept: with translatable columns but no id column, line 69 calls
`.dbType` on `None` (AttributeError); with translatable columns under
inheritance, `{pcol}` on line 76 reads a name bound only in the
`id_column and not inherits` branch (NameError). -/
def createTable (m : MsSchema) : Except PyErr String :=
  match (splitI18n m.columns).1 with
  | [] => .ok (createStdCmd m ++ "END")
  | _ :: _ =>
    match m.idColumn with
    | none => .error (.attributeError "dbType")
    | some idc =>
      match pcolOf m with
      | none => .error (.nameError "pcol")
      | some pcol =>
        .ok (createStdCmd m
          ++ i18nCreateBlock m.dbname (idTypeOf idc) pcol (i18nBodyOf m) ++ "END")

/-- `ALTER.__call__` (alter.py lines 8-78) for a Table model: standard
added columns each render an `ALTER TABLE "<name>"\n<ADD COLUMN ...>;`
statement; translatable added columns append the conditional i18n
side-table block (whose CREATE lists only `locale`, the reference
column and the composite primary key, the added columns following in a
nested ALTER).  As in the source, `id_type` here is
`id_column.dbType('MSSQL')` without the IDENTITY rewrite, and a missing
id column with i18n columns raises AttributeError at line 54. -/
def alterStdSql (m : MsSchema) (add : List MsColumn) : String :=
  match (splitI18n add).2 with
  | [] => ""
  | cols =>
    joinSep "\n" (cols.map (fun c =>
      "ALTER TABLE \"" ++ m.dbname ++ "\"\n" ++ ADD_COLUMN_sql c ++ ";"))

/-- The conditional i18n side-table block appended by `ALTER.__call__`
(alter.py lines 64-76), transcribed from the triple-quoted template with
its exact whitespace; the format substitutions `{table}`, `{id_type}`,
`{id_field}`, `{fields}` become `t`, `ty`, `idf`, `fs`.  Here the
composite primary key is rendered locale-first:
`PRIMARY KEY ("locale", "<table>_id")`. -/
def i18nAlterBlock (t ty idf fs : String) : String :=
  "\n            IF NOT EXISTS (SELECT 1 FROM information_schema.tables WHERE table_name='"
  ++ t ++ "')\n            BEGIN\n                "
  ++ ("CREATE TABLE \"" ++ t ++ "_i18n\" (")
  ++ "\n                    "
  ++ "\"locale\" VARCHAR(5),"
  ++ "\n                    "
  ++ ("\"" ++ t ++ "_id\" " ++ ty ++ " REFERENCES \"" ++ t ++ "\" (\"" ++ idf
      ++ "\") ON DELETE CASCADE,")
  ++ "\n                    CONSTRAINT \"" ++ t ++ "_i18n_pkey\" "
  ++ ("PRIMARY KEY (\"locale\", \"" ++ t ++ "_id\")")
  ++ "\n                )\n\n                ALTER TABLE \"" ++ t ++ "_i18n\""
  ++ "\n                " ++ fs
  ++ "\n            END\n            "

def alterCall (m : MsSchema) (add : List MsColumn) : Except PyErr String :=
  match (splitI18n add).1 with
  | [] => .ok (alterStdSql m add)
  | cols =>
    match m.idColumn with
    | none => .error (.attributeError "dbType")
    | some idc =>
      .ok (alterStdSql m add
        ++ i18nAlterBlock m.dbname idc.dbType idc.field
            ("\t" ++ joinSep ",\n\t" (cols.map ADD_COLUMN_sql)))

/-! ### PipeRecordSet (`src/src/orb/data/piperecordset.py`) -/

/-- A record argument to `addRecord`: its table identity (opaque) and
`isRecord()` flag.  Passing Python `None` is modelled by `Option`. -/
structure PipeRec where
  table : Nat
  isRec : Bool
  recId : Nat

/-- A `PipeRecordSet` as consumed by `addRecord`: `self.table()` is the
record set's target table (the base `RecordSet.table` accessor is not
under `src/`; modelled from spec §4.5, the target entity of the
relation), plus the pipe fields assigned in `__init__` (lines 28-41). -/
structure PipeRS where
  table : Option Nat
  pipeTable : Option Nat
  sourceColumn : String
  targetColumn : String
  sourceId : Nat

/-- One association row of the pipe table, as produced by
`pipe(**options)` with the source and target columns set (lines 73-76). -/
structure AssocRow where
  pipe : Nat
  sourceColumn : String
  sourceId : Nat
  targetColumn : String
  targetId : Nat
  deriving DecidableEq

/-- `pipe.selectFirst(where=q)` for the uniqueness query of lines 66-71:
whether the database already holds an association row linking the
source and the record over the same pipe and columns. -/
def pipeHasLink (db : List AssocRow) (pipe : Nat) (srcCol : String) (srcId : Nat)
    (tgtCol : String) (tgtId : Nat) : Bool :=
  db.any (fun r =>
    r.pipe = pipe ∧ r.sourceColumn = srcCol ∧ r.sourceId = srcId ∧
    r.targetColumn = tgtCol ∧ r.targetId = tgtId)

/-- `PipeRecordSet.addRecord` (piperecordset.py lines 43-79), with the
database as explicit state (`link.commit()` appends the new association
row; commit itself is outside `src/` and modelled from spec §4.5 as the
insertion of the association row).  `uniqueRecord` is
`options.pop('uniqueRecord', True)`.  Returns the created link, or
`None` with the database unchanged when any guard fails. -/
def addRecord (rs : PipeRS) (db : List AssocRow) (record : Option PipeRec)
    (uniqueRecord : Bool := true) : Option AssocRow × List AssocRow :=
  match rs.table, record with
  | some t, some r =>
    if r.isRec && t == r.table then
      match rs.pipeTable with
      | none => (none, db)
      | some pipe =>
        if uniqueRecord &&
            pipeHasLink db pipe rs.sourceColumn rs.sourceId rs.targetColumn r.recId then
          (none, db)
        else
          let link : AssocRow :=
            ⟨pipe, rs.sourceColumn, rs.sourceId, rs.targetColumn, r.recId⟩
          (some link, db ++ [link])
    else (none, db)
  | _, _ => (none, db)

/-! ## Theorems -/

/-- Two contexts built by separate `Context(limit=5)` calls: the option
values coincide exactly. -/
def c1ctxA : Context := ctxInit [("limit", .vInt 5)] none none

/-- The second separately constructed `Context(limit=5)` instance. -/
def c1ctxB : Context := ctxInit [("limit", .vInt 5)] none none

/-- C1 (code bug).  The claim says contexts built from the same
non-default option values compare equal and hash identically.  In the
source, `Context.__hash__` passes the generator expression object itself
to `hash`, so the result is the identity hash of a freshly allocated
generator — independent of every option value — and two constructions
generally hash (and hence compare) unequal; moreover the pair sequence
the generator describes subscripts `raw_values[k]` for every `Defaults`
key, so even the evidently intended `hash(tuple(...))` would raise
`KeyError` on the first unset option. -/
theorem claim_C1_hash_is_generator_identity :
    (∀ (c₁ c₂ : Context) (a : Nat), contextHash c₁ a = contextHash c₂ a) ∧
    c1ctxA.raw_values = c1ctxB.raw_values ∧
    contextHash c1ctxA 100 ≠ contextHash c1ctxB 101 ∧
    contextEq c1ctxA c1ctxB 100 101 = false ∧
    contextHashPairs c1ctxA = .error (.keyError "autoIncrementEnabled") := by
  refine ⟨fun _ _ _ => rfl, rfl, ?_, rfl, rfl⟩
  decide

/-- C3.  For a column with Required set and AutoIncrement unset,
`validate` raises ColumnValidationError exactly on null values (null
meaning falsy-but-not-boolean): in particular it raises on `None` and
the empty string and returns True on `False`. -/
theorem claim_C3_validate_required (c : Col)
    (hreq : testFlag c.flags Flags.Required = true)
    (hauto : testFlag c.flags Flags.AutoIncrement = false) :
    (∀ v, validate c v =
        .error (.columnValidationError c.name (c.name ++ " is a required column."))
      ↔ colIsNull v = true) ∧
    validate c .vNone =
      .error (.columnValidationError c.name (c.name ++ " is a required column.")) ∧
    validate c (.vStr "") =
      .error (.columnValidationError c.name (c.name ++ " is a required column.")) ∧
    validate c (.vBool false) = .ok true := by
  have hcond :
      (testFlag c.flags Flags.Required && !testFlag c.flags Flags.AutoIncrement) = true := by
    rw [hreq, hauto]; rfl
  have hmain : ∀ v, validate c v =
      .error (.columnValidationError c.name (c.name ++ " is a required column."))
      ↔ colIsNull v = true := by
    intro v
    unfold validate
    rw [hcond]
    cases hnull : colIsNull v <;> simp [hnull]
  refine ⟨hmain, ?_, ?_, ?_⟩
  · exact (hmain .vNone).mpr rfl
  · exact (hmain (.vStr "")).mpr rfl
  · unfold validate; rw [hcond]; rfl

/-- Witness for C3 at a concrete required, non-auto-increment column. -/
theorem claim_C3_validate_required_witness :
    validate ⟨"login", 32⟩ .vNone =
      .error (.columnValidationError "login" "login is a required column.") ∧
    validate ⟨"login", 32⟩ (.vStr "") =
      .error (.columnValidationError "login" "login is a required column.") ∧
    validate ⟨"login", 32⟩ (.vBool false) = .ok true := by
  have h := claim_C3_validate_required ⟨"login", 32⟩ (by decide) (by decide)
  exact ⟨h.2.1, h.2.2.1, h.2.2.2⟩

/-- C5 (code bug).  The integrity and fall-through classifications hold,
but `Interruption` is unreachable: the source compares the exception
object itself with the string `interrupted`, which is false for every
native error, so a cancelled query surfaces as QueryFailed like any
generic failure. -/
theorem claim_C5_interruption_unreachable :
    (∀ (cmd command : String) (data : Raw) (err : NativeErr),
      mssqlClassify cmd command data err ≠ .interruption) ∧
    mssqlClassify "SELECT 1;" "SELECT 1" [] (.operational "interrupted") =
      .queryFailed "SELECT 1;" [] "interrupted" ∧
    mssqlClassify "INSERT INTO users;" "INSERT INTO users" []
        (.integrity "UNIQUE constraint failed: users.username") =
      .duplicateEntryFound "users.username is already being used." ∧
    mssqlClassify "DROP TABLE x;" "DROP TABLE x" [] (.other "syntax error") =
      .queryFailed "DROP TABLE x;" [] "syntax error" := by
  refine ⟨?_, rfl, rfl, rfl⟩
  intro cmd command data err
  cases err with
  | operational msg => simp [mssqlClassify, excEqualsStr]
  | integrity msg =>
    simp only [mssqlClassify]
    cases uniqueCapture msg <;> simp
  | other msg => simp [mssqlClassify]

/-- The context of the C7 counterexample: `Context(inflated=False)`. -/
def c7ctx : Context := ctxInit [("inflated", .vBool false)] none none

/-- Counterexample to C7 as stated: the explicitly supplied falsy value
`False` for `inflated` is not returned; attribute access yields the
registered default `True` instead. -/
theorem claim_C7_counterexample :
    getattrCtx c7ctx "inflated" = .ok (.vBool true) ∧
    (Except.ok (PyValue.vBool true) : Except PyErr PyValue) ≠ .ok (.vBool false) := by
  refine ⟨rfl, ?_⟩
  simp

/-- C7 as amended: `__getattr__` returns the stored value only when that
value is truthy; a stored falsy value (and an absent key) yields the
registered default, and an unregistered key raises AttributeError. -/
theorem claim_C7_amended (c : Context) (key : String) :
    (∀ v, rawGet c.raw_values key = some v → pyTruthy v = true →
      getattrCtx c key = .ok v) ∧
    (∀ v d, rawGet c.raw_values key = some v → pyTruthy v = false →
      rawGet Defaults key = some d → getattrCtx c key = .ok d) ∧
    (∀ d, rawGet c.raw_values key = none → rawGet Defaults key = some d →
      getattrCtx c key = .ok d) ∧
    (∀ v, rawGet c.raw_values key = some v → pyTruthy v = false →
      rawGet Defaults key = none → getattrCtx c key = .error (.attributeError key)) ∧
    (rawGet c.raw_values key = none → rawGet Defaults key = none →
      getattrCtx c key = .error (.attributeError key)) := by
  refine ⟨?_, ?_, ?_, ?_, ?_⟩
  · intro v hv htruthy
    simp [getattrCtx, hv, htruthy]
  · intro v d hv htruthy hd
    simp [getattrCtx, hv, htruthy, hd]
  · intro d hv hd
    simp [getattrCtx, hv, hd]
  · intro v hv htruthy hd
    simp [getattrCtx, hv, htruthy, hd]
  · intro hv hd
    simp [getattrCtx, hv, hd]

/-- Witness for the amended C7 at `Context(inflated=False)`: the stored
`False` is falsy, so the default `True` comes back. -/
theorem claim_C7_amended_witness :
    getattrCtx c7ctx "inflated" = .ok (.vBool true) := by
  exact (claim_C7_amended c7ctx "inflated").2.1 (.vBool false) (.vBool true) rfl rfl rfl

/-- C9 (code bug).  `dbStore` on any non-empty list, tuple or set raises
`NameError` — the recursive call names an undefined variable `database`
— instead of returning the tuple of converted elements; the collection,
model and pass-through cases behave as claimed. -/
theorem claim_C9_dbStore_nameError :
    dbStore (.vList [.vInt 1, .vInt 2]) = .error (.nameError "database") ∧
    dbStore (.vTuple [.vStr "x"]) = .error (.nameError "database") ∧
    dbStore (.vSet [.vInt 3]) = .error (.nameError "database") ∧
    dbStore (.vList []) = .ok (.vTuple []) ∧
    dbStore (.vCollection [.vInt 1, .vInt 2]) = .ok (.vList [.vInt 1, .vInt 2]) ∧
    dbStore (.vModel (.vInt 7)) = .ok (.vInt 7) ∧
    dbStore (.vStr "plain") = .ok (.vStr "plain") :=
  ⟨rfl, rfl, rfl, rfl, rfl, rfl, rfl⟩

/-- C4 (code bug).  A first call of a cached reverse lookup on a
persisted record whose select produces a record set never stores the
result: the store path reads the never-defined `_locale_cache`
attribute and raises AttributeError, so no later call can be served
from the local cache. -/
theorem claim_C4_cache_store_raises :
    ∀ (unique : Bool) (timeout rid rsId : Nat) (optsHash : Int) (dbName : String)
      (fresh : CacheKey → Bool),
      revCall (mkRevLookup unique true timeout) ⟨[], fresh⟩ false true true
          rid optsHash dbName (some rsId) =
        .error (.attributeError "_locale_cache") :=
  fun _ _ _ _ _ _ _ => rfl

/-- Appending a fresh key to a tree level makes it visible to lookup. -/
theorem kidsGet_append_self (kids : List (String × PathTree)) (k : String) (t : PathTree)
    (h : kidsGet kids k = none) : kidsGet (kids ++ [(k, t)]) k = some t := by
  induction kids with
  | nil => simp [kidsGet]
  | cons hd tl ih =>
    obtain ⟨k0, t0⟩ := hd
    by_cases hk : k0 = k
    · simp [kidsGet, hk] at h
    · simp only [kidsGet, hk, List.cons_append, if_neg hk] at h ⊢
      exact ih h

/-- After `setdefault` the key is always present. -/
theorem kidsSetdefault_get (kids : List (String × PathTree)) (k : String) :
    ∃ t, kidsGet (kidsSetdefault kids k) k = some t := by
  unfold kidsSetdefault
  cases h : kidsGet kids k with
  | some t => simp [h]
  | none => exact ⟨.node [], by simp [h, kidsGet_append_self kids k _ h]⟩

/-- `build_tree` never returns on an input without a dot: `rpartition`
hands the whole string back as the remainder, so the function calls
itself with unchanged arguments until the recursion budget (in Python,
the interpreter recursion limit) is exhausted. -/
theorem buildTree_noDot (fuel : Nat) :
    ∀ (t : PathTree) (s : String), rpartAux s.data = none → s ≠ "" →
      buildTree fuel t s = none := by
  induction fuel with
  | zero => intro t s _ _; rfl
  | succ fuel ih =>
    intro t s hnone hne
    obtain ⟨kids⟩ := t
    have hp : rpartDot s = ("", s) := by simp [rpartDot, hnone]
    simp only [buildTree, hp, if_neg hne]
    obtain ⟨sub, hsub⟩ := kidsSetdefault_get kids ""
    rw [hsub]
    simp [ih sub s hnone hne]

/-- The context of the C8 claim: `Context(expand=['a', 'a.b'])` — the
example used by the claim itself. -/
def c8ctx : Context := ctxInit [("expand", .vList [.vStr "a", .vStr "a.b"])] none none

/-- C8 (code bug).  The claim says `expandtree()` terminates and folds
`['a', 'a.b']` into `{'a': {'b': {}}}`.  Because `build_tree` uses
`rpartition`, a path segment without a dot is passed back unchanged as
the remainder, so the recursion never terminates: for every recursion
budget the embedded `expandtree` fails to return (Python raises
`RecursionError` on every non-empty expand list whose final segment is
non-empty). -/
theorem claim_C8_expandtree_diverges : ∀ fuel : Nat, expandtree fuel c8ctx = none := by
  intro fuel
  have hexp : expandProp c8ctx = some ["a", "a.b"] := rfl
  have ha : buildTree fuel (.node []) "a" = none :=
    buildTree_noDot fuel _ "a" rfl (by decide)
  simp [expandtree, hexp, buildAll, ha]

/-- C10.  `PipeRecordSet.addRecord` returns `None` and leaves the
database untouched when the record set has no target table, the record
argument is `None`, the record is not persisted, the record belongs to a
different table, no pipe table is configured, or (under the default
`uniqueRecord=True`) an association row linking the source and the
record already exists. -/
theorem claim_C10_addRecord_guards (rs : PipeRS) (db : List AssocRow) :
    (∀ record u, rs.table = none → addRecord rs db record u = (none, db)) ∧
    (∀ u, addRecord rs db none u = (none, db)) ∧
    (∀ r u, r.isRec = false → addRecord rs db (some r) u = (none, db)) ∧
    (∀ r u t, rs.table = some t → r.table ≠ t → addRecord rs db (some r) u = (none, db)) ∧
    (∀ r u, rs.pipeTable = none → addRecord rs db (some r) u = (none, db)) ∧
    (∀ r t pipe, rs.table = some t → r.isRec = true → r.table = t →
      rs.pipeTable = some pipe →
      pipeHasLink db pipe rs.sourceColumn rs.sourceId rs.targetColumn r.recId = true →
      addRecord rs db (some r) true = (none, db)) := by
  refine ⟨?_, ?_, ?_, ?_, ?_, ?_⟩
  · intro record u h
    cases record <;> simp [addRecord, h]
  · intro u
    cases htab : rs.table <;> simp [addRecord, htab]
  · intro r u h
    cases htab : rs.table <;> simp [addRecord, htab, h]
  · intro r u t htab hne
    have hb : (t == r.table) = false := beq_eq_false_iff_ne.mpr (Ne.symm hne)
    simp [addRecord, htab, hb]
  · intro r u h
    cases htab : rs.table with
    | none => simp [addRecord, htab]
    | some t =>
      simp only [addRecord, htab, h]
      split <;> rfl
  · intro r t pipe htab hrec hrtab hpipe hlink
    simp [addRecord, htab, hrec, hrtab, hpipe, hlink]

/-- Witness for C10: with a target table, a pipe table and an existing
association row, adding the same persisted record again returns `None`
and leaves the row list unchanged; with no target table nothing is
inserted either. -/
theorem claim_C10_addRecord_guards_witness :
    addRecord ⟨some 1, some 9, "src", "tgt", 5⟩ [⟨9, "src", 5, "tgt", 7⟩]
        (some ⟨1, true, 7⟩) true = (none, [⟨9, "src", 5, "tgt", 7⟩]) ∧
    addRecord ⟨none, some 9, "src", "tgt", 5⟩ [] (some ⟨1, true, 7⟩) true = (none, []) := by
  refine ⟨?_, ?_⟩
  · exact (claim_C10_addRecord_guards ⟨some 1, some 9, "src", "tgt", 5⟩
      [⟨9, "src", 5, "tgt", 7⟩]).2.2.2.2.2 ⟨1, true, 7⟩ 1 9 rfl rfl rfl rfl (by decide)
  · exact (claim_C10_addRecord_guards ⟨none, some 9, "src", "tgt", 5⟩ []).1
      (some ⟨1, true, 7⟩) true rfl

/-! ### Dictionary lemmas for the context-merge proof -/

theorem rawGet_append_some {r1 : Raw} {k : String} {v : PyValue} (r2 : Raw)
    (h : rawGet r1 k = some v) : rawGet (r1 ++ r2) k = some v := by
  induction r1 with
  | nil => simp [rawGet] at h
  | cons hd tl ih =>
    obtain ⟨k0, v0⟩ := hd
    by_cases hk : k0 = k
    · simp [rawGet, hk] at h ⊢
      exact h
    · simp only [rawGet, if_neg hk, List.cons_append] at h ⊢
      exact ih h

theorem rawGet_append_none {r1 : Raw} {k : String} (r2 : Raw)
    (h : rawGet r1 k = none) : rawGet (r1 ++ r2) k = rawGet r2 k := by
  induction r1 with
  | nil => rfl
  | cons hd tl ih =>
    obtain ⟨k0, v0⟩ := hd
    by_cases hk : k0 = k
    · simp [rawGet, hk] at h
    · simp only [rawGet, if_neg hk, List.cons_append] at h ⊢
      exact ih h

theorem rawGet_setdefault_self (r : Raw) (k : String) (v : PyValue) :
    rawGet (rawSetdefault r k v) k = some ((rawGet r k).getD v) := by
  unfold rawSetdefault
  cases h : rawGet r k with
  | some w => simp [h]
  | none =>
    simp only [h, Option.isSome_none, Bool.false_eq_true, if_false, Option.getD_none]
    rw [rawGet_append_none _ h]
    simp [rawGet]

theorem rawGet_setdefault_ne (r : Raw) (k : String) (v : PyValue) {k' : String}
    (h : k ≠ k') : rawGet (rawSetdefault r k v) k' = rawGet r k' := by
  unfold rawSetdefault
  cases hk : rawGet r k with
  | some w => simp [hk]
  | none =>
    simp only [hk, Option.isSome_none, Bool.false_eq_true, if_false]
    cases hk' : rawGet r k' with
    | some w => rw [rawGet_append_some _ hk']
    | none =>
      rw [rawGet_append_none _ hk']
      simp [rawGet, h]

theorem rawGet_cons (k0 : String) (v0 : PyValue) (tl : Raw) (k : String) :
    rawGet ((k0, v0) :: tl) k = if k0 = k then some v0 else rawGet tl k := rfl

theorem rawSet_cons (k0 : String) (v0 : PyValue) (tl : Raw) (k : String) (v : PyValue) :
    rawSet ((k0, v0) :: tl) k v =
      if k0 = k then (k0, v) :: tl else (k0, v0) :: rawSet tl k v := rfl

theorem rawGet_set_self (r : Raw) (k : String) (v : PyValue) :
    rawGet (rawSet r k v) k = some v := by
  induction r with
  | nil => simp [rawSet, rawGet]
  | cons hd tl ih =>
    obtain ⟨k0, v0⟩ := hd
    by_cases hk : k0 = k
    · simp [rawSet, rawGet, hk]
    · simp [rawSet, rawGet, hk, ih]

theorem rawGet_set_ne (r : Raw) (k : String) (v : PyValue) {k' : String}
    (h : k ≠ k') : rawGet (rawSet r k v) k' = rawGet r k' := by
  induction r with
  | nil => simp [rawSet, rawGet, h]
  | cons hd tl ih =>
    obtain ⟨k0, v0⟩ := hd
    rw [rawSet_cons]
    by_cases hk : k0 = k
    · rw [if_pos hk, rawGet_cons, rawGet_cons]
      have hne : ¬(k0 = k') := fun hh => h (hk.symm.trans hh)
      rw [if_neg hne, if_neg hne]
    · rw [if_neg hk, rawGet_cons, rawGet_cons]
      by_cases hk' : k0 = k'
      · rw [if_pos hk', if_pos hk']
      · rw [if_neg hk', if_neg hk', ih]

/-- Lookup through the default-fill fold: the ignored keys and every key
already present keep their value, absent keys pick up the first source
occurrence. -/
theorem rawGet_foldIgnore (src : Raw) (kwds : Raw) (k : String) :
    rawGet (src.foldl
      (fun acc kv =>
        if kv.1 = "columns" ∨ kv.1 = "where" then acc
        else rawSetdefault acc kv.1 kv.2) kwds) k =
    if k = "columns" ∨ k = "where" then rawGet kwds k
    else
      match rawGet kwds k with
      | some v => some v
      | none => rawGet src k := by
  induction src generalizing kwds with
  | nil =>
    cases h : rawGet kwds k with
    | some v => split <;> simp [h]
    | none => split <;> simp [h, rawGet]
  | cons hd tl ih =>
    obtain ⟨k0, v0⟩ := hd
    simp only [List.foldl_cons]
    by_cases hk0 : k0 = "columns" ∨ k0 = "where"
    · rw [if_pos hk0, ih]
      by_cases hk : k = "columns" ∨ k = "where"
      · simp [hk]
      · have hne : ¬(k0 = k) := fun h => hk (h ▸ hk0)
        have hcons : rawGet ((k0, v0) :: tl) k = rawGet tl k := by
          simp [rawGet, hne]
        simp [hk, hcons]
    · rw [if_neg hk0, ih]
      by_cases hkk0 : k0 = k
      · subst hkk0
        rw [if_neg hk0, if_neg hk0]
        rw [rawGet_setdefault_self]
        cases h : rawGet kwds k0 with
        | some w => simp [h]
        | none => simp [h, rawGet]
      · rw [rawGet_setdefault_ne _ _ _ hkk0]
        by_cases hk : k = "columns" ∨ k = "where"
        · simp [hk]
        · have hcons : rawGet ((k0, v0) :: tl) k = rawGet tl k := by
            simp [rawGet, hkk0]
          simp [hk, hcons]

theorem rawGet_ignoreFold (other : Context) (kwds : Raw) (k : String) :
    rawGet (ignoreFold kwds other) k =
    if k = "columns" ∨ k = "where" then rawGet kwds k
    else
      match rawGet kwds k with
      | some v => some v
      | none => rawGet other.raw_values k :=
  rawGet_foldIgnore other.raw_values kwds k

theorem rawGet_mergeWhere_ne (kwds : Raw) (other : Context) {k : String}
    (h : k ≠ "where") : rawGet (mergeWhere kwds other) k = rawGet kwds k := by
  unfold mergeWhere
  cases ctxWhereOf other with
  | none => rfl
  | some w => exact rawGet_set_ne _ _ _ (fun hh => h hh.symm)

theorem rawGet_mergeColumns_ne (kwds : Raw) (other : Context) {k : String}
    (h : k ≠ "columns") : rawGet (mergeColumns kwds other) k = rawGet kwds k := by
  unfold mergeColumns
  cases ctxColumnsOf other with
  | none => rfl
  | some cols => exact rawGet_set_ne _ _ _ (fun hh => h hh.symm)

/-- Lookup after the final `Defaults`-membership filter of
`Context.__init__`. -/
theorem rawGet_filterDefaults (r : Raw) (k : String) :
    rawGet (r.filter (fun kv => (rawGet Defaults kv.1).isSome)) k =
      if (rawGet Defaults k).isSome then rawGet r k else none := by
  induction r with
  | nil => split <;> rfl
  | cons hd tl ih =>
    obtain ⟨k0, v0⟩ := hd
    rw [List.filter_cons]
    by_cases hd0 : (rawGet Defaults k0).isSome = true
    · rw [if_pos hd0, rawGet_cons]
      by_cases hkk0 : k0 = k
      · subst hkk0
        rw [if_pos rfl, rawGet_cons, if_pos rfl, if_pos hd0]
      · rw [if_neg hkk0, ih, rawGet_cons, if_neg hkk0]
    · rw [if_neg hd0, ih, rawGet_cons]
      by_cases hkk0 : k0 = k
      · subst hkk0
        rw [if_neg hd0, if_neg hd0]
      · rw [if_neg hkk0]

/-- Evaluation of the AND-merge: combining with an existing query is
boolean conjunction. -/
theorem evalQ_qAndOpt (env : Nat → Bool) (q r : Query) :
    evalQ env (qAndOpt q (some r)) = (evalQ env q && evalQ env r) := by
  cases q <;> cases r <;> simp [qAndOpt, evalQ]

/-- Filtering against an empty source column list keeps everything. -/
theorem filter_not_any_nil (C : List PyValue) :
    C.filter (fun col => !List.any [] (pyEq col)) = C := by
  induction C with
  | nil => rfl
  | cons h t ih => simp [List.filter, ih]

/-- Evaluation of an optional source predicate (`None` accepts all). -/
def evalOptQ (env : Nat → Bool) : Option Query → Bool
  | none => true
  | some q => evalQ env q

/-- The context built by `Context(context=S, where=B, columns=C)` with
no ambient thread-default context. -/
def c2ctx (S : Context) (B : Query) (C : List PyValue) : Context :=
  ctxInit [("where", .vQuery B), ("columns", .vList C)] (some S) none

/-- The source context of the C2 counterexample:
`Context(columns=['a'])`. -/
def c2excS : Context := ctxInit [("columns", .vList [.vStr "a"])] none none

/-- Counterexample to C2 as stated: merging `columns=['b', 'b']` into a
source with columns `['a']` produces `['a', 'b', 'b']` — the source list
followed by every new column not already in the source, so duplicates
inside the new list survive, contradicting the claimed
no-duplicates union. -/
theorem claim_C2_counterexample :
    rawGet (c2ctx c2excS Query.empty [.vStr "b", .vStr "b"]).raw_values "columns" =
      some (.vList [.vStr "a", .vStr "b", .vStr "b"]) ∧
    ¬ List.Nodup [PyValue.vStr "a", .vStr "b", .vStr "b"] := by
  refine ⟨rfl, ?_⟩
  intro h
  exact (List.nodup_cons.mp (List.nodup_cons.mp h).2).1 (List.mem_singleton.mpr rfl)

/-- C2 as amended.  `Context(context=S, where=B, columns=C)` yields: an
effective `where` equivalent to the AND of the source predicate and `B`;
a columns list that is the source columns followed by the members of `C`
not already present in the source columns, in order, with duplicates
inside `C` preserved (deduplication happens only against the source
list); and every other registered option inherited from `S` by
default-fill. -/
theorem claim_C2_amended (S : Context) (B : Query) (C Scols : List PyValue)
    (hC : ctxColumnsOf S = some Scols ∨ (ctxColumnsOf S = none ∧ Scols = [])) :
    ∃ q : Query,
      rawGet (c2ctx S B C).raw_values "where" = some (.vQuery q) ∧
      (∀ env, evalQ env q = (evalOptQ env (ctxWhereOf S) && evalQ env B)) ∧
      rawGet (c2ctx S B C).raw_values "columns" =
        some (.vList (Scols ++ C.filter (fun col => !Scols.any (pyEq col)))) ∧
      ∀ k, ¬(k = "columns" ∨ k = "where") → (rawGet Defaults k).isSome →
        rawGet (c2ctx S B C).raw_values k = rawGet S.raw_values k := by
  have hctx : (c2ctx S B C).raw_values =
      (mergeColumns (mergeWhere (ignoreFold [("where", .vQuery B), ("columns", .vList C)] S) S) S).filter
        (fun kv => (rawGet Defaults kv.1).isSome) := rfl
  have hfw : rawGet (ignoreFold [("where", .vQuery B), ("columns", .vList C)] S) "where" =
      some (.vQuery B) := by
    rw [rawGet_ignoreFold]
    simp [rawGet]
  have hfc : rawGet (ignoreFold [("where", .vQuery B), ("columns", .vList C)] S) "columns" =
      some (.vList C) := by
    rw [rawGet_ignoreFold]
    simp [rawGet]
  -- the merged where value
  have hwhere : ∃ q : Query,
      rawGet (mergeWhere (ignoreFold [("where", .vQuery B), ("columns", .vList C)] S) S) "where" =
        some (.vQuery q) ∧
      ∀ env, evalQ env q = (evalOptQ env (ctxWhereOf S) && evalQ env B) := by
    cases hW : ctxWhereOf S with
    | none =>
      refine ⟨B, ?_, ?_⟩
      · unfold mergeWhere
        rw [hW, hfw]
      · intro env
        simp [evalOptQ]
    | some a =>
      refine ⟨qAndOpt (qAndOpt Query.empty (some a)) (some B), ?_, ?_⟩
      · unfold mergeWhere
        rw [hW]
        have hkw : kwdsWhere (ignoreFold [("where", .vQuery B), ("columns", .vList C)] S) =
            some B := by
          unfold kwdsWhere
          rw [hfw]
        rw [hkw, rawGet_set_self]
      · intro env
        rw [evalQ_qAndOpt, evalQ_qAndOpt]
        simp [evalQ, evalOptQ]
  obtain ⟨q, hq, heval⟩ := hwhere
  refine ⟨q, ?_, heval, ?_, ?_⟩
  · rw [hctx, rawGet_filterDefaults]
    rw [if_pos (by rfl)]
    rw [rawGet_mergeColumns_ne _ _ (by decide), hq]
  · rw [hctx, rawGet_filterDefaults, if_pos (by rfl)]
    cases hC with
    | inl hs =>
      unfold mergeColumns
      rw [hs]
      rw [rawGet_set_self]
      have hkcols : kwdsColumns (mergeWhere (ignoreFold [("where", .vQuery B), ("columns", .vList C)] S) S) = C := by
        unfold kwdsColumns
        rw [rawGet_mergeWhere_ne _ _ (by decide), hfc]
      rw [hkcols]
    | inr hn =>
      obtain ⟨hnone, hnil⟩ := hn
      unfold mergeColumns
      rw [hnone]
      rw [rawGet_mergeWhere_ne _ _ (by decide), hfc]
      subst hnil
      rw [filter_not_any_nil]
      rfl
  · intro k hk hdef
    rw [hctx, rawGet_filterDefaults, if_pos hdef]
    have hknc : k ≠ "columns" := fun h => hk (Or.inl h)
    have hknw : k ≠ "where" := fun h => hk (Or.inr h)
    rw [rawGet_mergeColumns_ne _ _ hknc, rawGet_mergeWhere_ne _ _ hknw, rawGet_ignoreFold,
      if_neg hk]
    have h1 : ¬("where" = k) := fun hh => hknw hh.symm
    have h2 : ¬("columns" = k) := fun hh => hknc hh.symm
    have hkw0 : rawGet [("where", .vQuery B), ("columns", .vList C)] k = none := by
      simp [rawGet, h1, h2]
    rw [hkw0]

/-- The source context of the C2 witness:
`Context(where=atom 0, columns=['a'], limit=7)`. -/
def c2Sx : Context :=
  ctxInit [("where", .vQuery (.atom 0)), ("columns", .vList [.vStr "a"]), ("limit", .vInt 7)]
    none none

/-- Witness for the amended C2 at concrete contexts: the merged where
accepts an all-true environment, the columns union drops the shared
column, and `limit` is inherited from the source. -/
theorem claim_C2_amended_witness :
    ∃ q : Query,
      rawGet (c2ctx c2Sx (.atom 1) [.vStr "a", .vStr "b"]).raw_values "where" =
        some (.vQuery q) ∧
      evalQ (fun _ => true) q = true ∧
      rawGet (c2ctx c2Sx (.atom 1) [.vStr "a", .vStr "b"]).raw_values "columns" =
        some (.vList [.vStr "a", .vStr "b"]) ∧
      rawGet (c2ctx c2Sx (.atom 1) [.vStr "a", .vStr "b"]).raw_values "limit" =
        some (.vInt 7) := by
  obtain ⟨q, hq, heval, hcols, hinh⟩ :=
    claim_C2_amended c2Sx (.atom 1) [.vStr "a", .vStr "b"] [.vStr "a"] (Or.inl rfl)
  refine ⟨q, hq, ?_, ?_, ?_⟩
  · rw [heval (fun _ => true)]
    rfl
  · rw [hcols]
    rfl
  · exact (hinh "limit" (by simp) rfl).trans rfl

/-! ### Substring machinery for the DDL shape claims -/

theorem str_data_append (a b : String) : (a ++ b).data = a.data ++ b.data := rfl

/-- `pat` occurs contiguously inside `s`. -/
def Substr (pat s : String) : Prop :=
  ∃ l r : List Char, s.data = l ++ pat.data ++ r

theorem substr_self (p : String) : Substr p p := ⟨[], [], by simp⟩

theorem substr_appL {p s : String} (t : String) : Substr p s → Substr p (t ++ s) :=
  fun ⟨l, r, h⟩ => ⟨t.data ++ l, r, by rw [str_data_append, h]; simp⟩

theorem substr_appR {p s : String} (t : String) : Substr p s → Substr p (s ++ t) :=
  fun ⟨l, r, h⟩ => ⟨l, r ++ t.data, by rw [str_data_append, h]; simp⟩

theorem substr_trans {p q s : String} : Substr p q → Substr q s → Substr p s :=
  fun ⟨l1, r1, h1⟩ ⟨l2, r2, h2⟩ => ⟨l2 ++ l1, r1 ++ r2, by rw [h2, h1]; simp⟩

/-- Every member of a joined list occurs in the joined string. -/
theorem substr_join_mem (sep : String) {x : String} :
    ∀ {l : List String}, x ∈ l → Substr x (joinSep sep l) := by
  intro l
  induction l with
  | nil => intro h; cases h
  | cons y ys ih =>
    intro h
    cases h with
    | head =>
      cases ys with
      | nil => exact substr_self _
      | cons z zs => exact substr_appR _ (substr_appR _ (substr_self _))
    | tail _ hmem =>
      cases ys with
      | nil => cases hmem
      | cons z zs => exact substr_appL _ (ih hmem)

theorem substr_i18nCreate_name (t ty p b : String) :
    Substr ("CREATE TABLE \"" ++ t ++ "_i18n\" (") (i18nCreateBlock t ty p b) := by
  unfold i18nCreateBlock
  repeat first
    | exact substr_appL _ (substr_self _)
    | apply substr_appR

theorem substr_i18nCreate_locale (t ty p b : String) :
    Substr "\"locale\" VARCHAR(5)," (i18nCreateBlock t ty p b) := by
  unfold i18nCreateBlock
  repeat first
    | exact substr_appL _ (substr_self _)
    | apply substr_appR

theorem substr_i18nCreate_ref (t ty p b : String) :
    Substr ("\"" ++ t ++ "_id\" " ++ ty ++ " REFERENCES \"" ++ t ++ "\" (" ++ p ++ "),")
      (i18nCreateBlock t ty p b) := by
  unfold i18nCreateBlock
  repeat first
    | exact substr_appL _ (substr_self _)
    | apply substr_appR

theorem substr_i18nCreate_body (t ty p b : String) :
    Substr b (i18nCreateBlock t ty p b) := by
  unfold i18nCreateBlock
  repeat first
    | exact substr_appL _ (substr_self _)
    | apply substr_appR

theorem substr_i18nCreate_pk (t ty p b : String) :
    Substr ("PRIMARY KEY (\"" ++ t ++ "_id\", \"locale\")") (i18nCreateBlock t ty p b) := by
  unfold i18nCreateBlock
  repeat first
    | exact substr_appL _ (substr_self _)
    | apply substr_appR

theorem substr_i18nAlter_pk (t ty idf fs : String) :
    Substr ("PRIMARY KEY (\"locale\", \"" ++ t ++ "_id\")") (i18nAlterBlock t ty idf fs) := by
  unfold i18nAlterBlock
  repeat first
    | exact substr_appL _ (substr_self _)
    | apply substr_appR

/-- The schema of the C6 concrete check: table `t` with an
auto-increment integer id, one standard column and one translatable
column. -/
def c6schema : MsSchema :=
  ⟨"t", some ⟨"id", "INTEGER IDENTITY(1,1)", [], false, false⟩,
   [⟨"name", "TEXT", [], false, false⟩, ⟨"title", "TEXT", [], false, true⟩], none⟩

/-- The rendered CREATE command of the C6 concrete schema. -/
def c6cmd : String :=
  match createTable c6schema with
  | .ok s => s
  | .error _ => ""

/-- Counterexample to C6 as stated: for the concrete one-translatable,
one-standard schema the rendered CREATE DDL contains the composite
primary key with the id column first — it does NOT contain the claimed
`PRIMARY KEY ("locale", "t_id")` text, but does contain
`PRIMARY KEY ("t_id", "locale")`. -/
theorem claim_C6_counterexample :
    createTable c6schema = .ok c6cmd ∧
    strContainsB c6cmd "PRIMARY KEY (\"locale\", \"t_id\")" = false ∧
    strContainsB c6cmd "PRIMARY KEY (\"t_id\", \"locale\")" = true ∧
    strContainsB c6cmd "CREATE TABLE \"t_i18n\" (" = true := by
  refine ⟨rfl, ?_, ?_, ?_⟩ <;> rfl

/-- C6 as amended.  For every schema owning its id column (no
inheritance) with at least one non-virtual translatable column, the
rendered CREATE DDL contains the `<table>_i18n` block with the `locale
VARCHAR(5)` column, the typed `<table>_id` reference column, every
translatable column fragment, and a composite primary key rendered as
`("<table>_id", "locale")` — id first; the i18n-adding ALTER DDL renders
its composite primary key in the other order,
`("locale", "<table>_id")`. -/
theorem claim_C6_amended (m : MsSchema) (idc : MsColumn)
    (hid : m.idColumn = some idc) (hinh : m.inherits = none)
    (hi18n : (splitI18n m.columns).1 ≠ []) :
    ∃ cmd : String,
      createTable m = .ok cmd ∧
      Substr ("CREATE TABLE \"" ++ m.dbname ++ "_i18n\" (") cmd ∧
      Substr "\"locale\" VARCHAR(5)," cmd ∧
      Substr ("\"" ++ m.dbname ++ "_id\" " ++ idTypeOf idc ++ " REFERENCES \""
        ++ m.dbname ++ "\" (" ++ ("\"" ++ idc.field ++ "\"") ++ "),") cmd ∧
      (∀ c ∈ (splitI18n m.columns).1,
        Substr (pyReplace (ADD_COLUMN_sql c) "ADD COLUMN " "") cmd) ∧
      Substr ("PRIMARY KEY (\"" ++ m.dbname ++ "_id\", \"locale\")") cmd ∧
      ∀ add : List MsColumn, (splitI18n add).1 ≠ [] →
        ∃ sql, alterCall m add = .ok sql ∧
          Substr ("PRIMARY KEY (\"locale\", \"" ++ m.dbname ++ "_id\")") sql := by
  obtain ⟨c0, cs0, h18⟩ : ∃ c0 cs0, (splitI18n m.columns).1 = c0 :: cs0 := by
    cases h : (splitI18n m.columns).1 with
    | nil => exact absurd h hi18n
    | cons a b => exact ⟨a, b, rfl⟩
  have hpcol : pcolOf m = some ("\"" ++ idc.field ++ "\"") := by
    unfold pcolOf
    rw [hid, hinh]
  have hshape : createTable m =
      .ok (createStdCmd m ++ i18nCreateBlock m.dbname (idTypeOf idc)
        ("\"" ++ idc.field ++ "\"") (i18nBodyOf m) ++ "END") := by
    unfold createTable
    rw [h18, hid, hpcol]
  have hlift : ∀ pat : String,
      Substr pat (i18nCreateBlock m.dbname (idTypeOf idc)
        ("\"" ++ idc.field ++ "\"") (i18nBodyOf m)) →
      Substr pat (createStdCmd m ++ i18nCreateBlock m.dbname (idTypeOf idc)
        ("\"" ++ idc.field ++ "\"") (i18nBodyOf m) ++ "END") :=
    fun _ h => substr_appR _ (substr_appL _ h)
  refine ⟨_, hshape, hlift _ (substr_i18nCreate_name _ _ _ _),
    hlift _ (substr_i18nCreate_locale _ _ _ _),
    hlift _ (substr_i18nCreate_ref _ _ _ _), ?_,
    hlift _ (substr_i18nCreate_pk _ _ _ _), ?_⟩
  · intro c hc
    refine hlift _ (substr_trans ?_ (substr_i18nCreate_body _ _ _ _))
    exact substr_join_mem ",\n\t" (List.mem_map_of_mem _ hc)
  · intro add hadd
    obtain ⟨c1, cs1, h18a⟩ : ∃ c1 cs1, (splitI18n add).1 = c1 :: cs1 := by
      cases h : (splitI18n add).1 with
      | nil => exact absurd h hadd
      | cons a b => exact ⟨a, b, rfl⟩
    have hshapeA : alterCall m add =
        .ok (alterStdSql m add ++ i18nAlterBlock m.dbname idc.dbType idc.field
          ("\t" ++ joinSep ",\n\t" ((c1 :: cs1).map ADD_COLUMN_sql))) := by
      unfold alterCall
      rw [h18a, hid]
    exact ⟨_, hshapeA, substr_appL _ (substr_i18nAlter_pk _ _ _ _)⟩

/-- Witness for the amended C6 at the concrete schema: the CREATE DDL
contains the id-first composite primary key. -/
theorem claim_C6_amended_witness :
    ∃ cmd, createTable c6schema = .ok cmd ∧
      Substr ("PRIMARY KEY (\"" ++ c6schema.dbname ++ "_id\", \"locale\")") cmd := by
  obtain ⟨cmd, h1, _, _, _, _, h6, _⟩ :=
    claim_C6_amended c6schema ⟨"id", "INTEGER IDENTITY(1,1)", [], false, false⟩ rfl rfl
      (by decide)
  exact ⟨cmd, h1, h6⟩

end Orb
